import Mathlib

/-!
Verification development for the listory-api server: a shallow embedding of
the quota ledger (src/lib/rate-limit.ts), the access gate
(src/lib/supabase.ts), the storage ownership check (src/lib/s3.ts), and the
route handlers for OCR, coaching, meeting analysis and file deletion
(src/app/api/...). External collaborators (the auth store, the usage store,
the LLM provider, the object store) are modelled as explicit inputs; each
handler returns its response envelope together with the ordered list of
side effects it performed.
-/

namespace Listory

/-! ## Quota ledger (src/lib/rate-limit.ts) -/

/-- Per-feature rate limit configuration: monthly caps per tier
(0 = unlimited), mirroring the RateLimitConfig interface. -/
structure RateLimitConfig where
  apiType : String
  basic : Nat
  pro : Nat
  business : Nat
deriving Repr, DecidableEq

/-- The static RATE_LIMITS table of rate-limit.ts, as a lookup from the
feature tag to its configuration (none for unknown tags). -/
def RATE_LIMITS (apiType : String) : Option RateLimitConfig :=
  match apiType with
  | "transcribe" => some ⟨"transcribe", 10, 0, 0⟩
  | "ocr" => some ⟨"ocr", 50, 0, 0⟩
  | "analyze" => some ⟨"analyze", 20, 0, 0⟩
  | "email" => some ⟨"email", 30, 0, 0⟩
  | "deepgram_token" => some ⟨"deepgram_token", 0, 0, 0⟩
  | _ => none

/-- The lookup config.tierLimits[tier as keyof ...] || 0: an unknown tier
name yields 0 (JS: undefined || 0). -/
def tierLimit (c : RateLimitConfig) (tier : String) : Nat :=
  match tier with
  | "basic" => c.basic
  | "pro" => c.pro
  | "business" => c.business
  | _ => 0

/-- The ephemeral decision value returned by checkRateLimit. -/
structure QuotaDecision where
  allowed : Bool
  remaining : Int
  limit : Int
deriving Repr, DecidableEq

/-- A row of the api_usage table: one record per successful billable call. -/
structure UsageRecord where
  user_id : String
  api_type : String
  month_year : String
deriving Repr, DecidableEq

/-- The count query of checkRateLimit: number of api_usage rows matching
(user_id, api_type, month_year). -/
def countUsage (store : List UsageRecord) (userId apiType monthYear : String) : Nat :=
  (store.filter fun r =>
    r.user_id == userId && r.api_type == apiType && r.month_year == monthYear).length

/-- recordUsage appends one api_usage row for the current month bucket. -/
def recordUsage (store : List UsageRecord) (userId apiType monthYear : String) :
    List UsageRecord :=
  store ++ [⟨userId, apiType, monthYear⟩]

/-- checkRateLimit of rate-limit.ts. The supabase count query is passed in
as its outcome: .error e for a failed query, .ok c for a successful one
(c is the possibly-null count; used = count || 0). Unknown feature tags
and zero caps decide before the query is issued, so the decision there is
independent of queryResult. -/
def checkRateLimit (queryResult : Except String (Option Nat))
    (tier apiType : String) : QuotaDecision :=
  match RATE_LIMITS apiType with
  | none => ⟨true, -1, 0⟩
  | some config =>
    let limit := tierLimit config tier
    if limit = 0 then ⟨true, -1, 0⟩
    else
      match queryResult with
      | .error _ => ⟨false, 0, (limit : Int)⟩
      | .ok count =>
        let used := count.getD 0
        ⟨decide (used < limit), max 0 ((limit : Int) - (used : Int)), (limit : Int)⟩

end Listory

namespace Listory

/-! ### Claims about the quota ledger -/

/-- C1: for a feature tag with a nonzero configured cap, a failed count
query makes checkRateLimit fail closed: allowed = false, remaining = 0,
limit = the configured cap; in particular allowed is never true on a
count-query error. -/
theorem checkRateLimit_fails_closed (tier apiType : String)
    (cfg : RateLimitConfig) (hcfg : RATE_LIMITS apiType = some cfg)
    (hnz : tierLimit cfg tier ≠ 0) (e : String) :
    checkRateLimit (.error e) tier apiType =
      ⟨false, 0, (tierLimit cfg tier : Int)⟩ ∧
    (checkRateLimit (.error e) tier apiType).allowed = false := by
  unfold checkRateLimit
  rw [hcfg]
  simp [hnz]

/-- Witness for C1: the ocr feature at basic tier (cap 50) denies on a
count-query error. -/
theorem checkRateLimit_fails_closed_witness :
    checkRateLimit (.error "network down") "basic" "ocr" = ⟨false, 0, 50⟩ := by
  have h := checkRateLimit_fails_closed "basic" "ocr" ⟨"ocr", 50, 0, 0⟩
    (by decide) (by decide) "network down"
  exact h.1

/-- C3: for a known feature tag whose cap C at the given tier is nonzero, a
successful count query returning u records yields allowed = (u < C),
remaining = max 0 (C - u), limit = C; at u = C the decision is
(false, 0), at u = C - 1 it is (true, 1). The count u is the number of
usage records for (user, feature, month), and a store holding exactly C
such records counts as C. -/
theorem checkRateLimit_counts (tier apiType : String) (cfg : RateLimitConfig)
    (hcfg : RATE_LIMITS apiType = some cfg) (C : Nat)
    (hC : tierLimit cfg tier = C) (hnz : C ≠ 0) :
    (∀ u : Nat, checkRateLimit (.ok (some u)) tier apiType =
      ⟨decide (u < C), max 0 ((C : Int) - (u : Int)), (C : Int)⟩) ∧
    checkRateLimit (.ok (some C)) tier apiType = ⟨false, 0, (C : Int)⟩ ∧
    checkRateLimit (.ok (some (C - 1))) tier apiType = ⟨true, 1, (C : Int)⟩ ∧
    (∀ userId monthYear : String,
      countUsage (List.replicate C ⟨userId, apiType, monthYear⟩)
        userId apiType monthYear = C) := by
  have hgen : ∀ u : Nat, checkRateLimit (.ok (some u)) tier apiType =
      ⟨decide (u < C), max 0 ((C : Int) - (u : Int)), (C : Int)⟩ := by
    intro u
    unfold checkRateLimit
    rw [hcfg]
    simp [hC, hnz]
  refine ⟨hgen, ?_, ?_, ?_⟩
  · rw [hgen C]
    simp
  · rw [hgen (C - 1)]
    have h1 : C - 1 < C := Nat.sub_lt (Nat.pos_of_ne_zero hnz) Nat.one_pos
    have h2 : (C : Int) - ((C - 1 : Nat) : Int) = 1 := by
      omega
    simp [h1, h2]
  · intro userId monthYear
    unfold countUsage
    rw [List.filter_eq_self.mpr]
    · exact List.length_replicate C _
    · intro r hr
      rw [List.eq_of_mem_replicate hr]
      simp

/-- Witness for C3: analyze at basic tier, cap 20: twenty recorded events
deny, nineteen leave one remaining. -/
theorem checkRateLimit_counts_witness :
    checkRateLimit (.ok (some 20)) "basic" "analyze" = ⟨false, 0, 20⟩ ∧
    checkRateLimit (.ok (some 19)) "basic" "analyze" = ⟨true, 1, 20⟩ := by
  have h := checkRateLimit_counts "basic" "analyze" ⟨"analyze", 20, 0, 0⟩
    (by decide) 20 (by decide) (by decide)
  exact ⟨h.2.1, h.2.2.1⟩

/-- C4: an unknown feature tag, or a known tag whose cap for the tier is 0
(including any tier missing from the tier table), decides
(allowed = true, remaining = -1, limit = 0) identically for every possible
count-query outcome: the usage store is not consulted. -/
theorem checkRateLimit_unlimited (tier apiType : String)
    (h : RATE_LIMITS apiType = none ∨
      ∃ cfg, RATE_LIMITS apiType = some cfg ∧ tierLimit cfg tier = 0) :
    ∀ queryResult : Except String (Option Nat),
      checkRateLimit queryResult tier apiType = ⟨true, -1, 0⟩ := by
  intro queryResult
  unfold checkRateLimit
  rcases h with h | ⟨cfg, hcfg, hz⟩
  · rw [h]
  · rw [hcfg]
    simp [hz]

/-- Witness for C4: an unknown feature tag with an erroring store, a zero
cap (deepgram_token at pro) with a huge usage count, and a tier missing
from the table all decide (true, -1, 0). -/
theorem checkRateLimit_unlimited_witness :
    checkRateLimit (.error "down") "basic" "no_such_feature" = ⟨true, -1, 0⟩ ∧
    checkRateLimit (.ok (some 1000000)) "pro" "deepgram_token" = ⟨true, -1, 0⟩ ∧
    checkRateLimit (.ok (some 7)) "enterprise" "ocr" = ⟨true, -1, 0⟩ := by
  refine ⟨?_, ?_, ?_⟩
  · exact checkRateLimit_unlimited "basic" "no_such_feature" (Or.inl (by decide)) _
  · exact checkRateLimit_unlimited "pro" "deepgram_token"
      (Or.inr ⟨⟨"deepgram_token", 0, 0, 0⟩, by decide, by decide⟩) _
  · exact checkRateLimit_unlimited "enterprise" "ocr"
      (Or.inr ⟨⟨"ocr", 50, 0, 0⟩, by decide, by decide⟩) _

end Listory

namespace Listory

/-! ## Access gate (src/lib/supabase.ts) -/

/-- A profiles row as read by getUserProfile: the stored subscription tier
(None models a null / missing column, which is falsy in JS) and the
optional trial expiry, as an absolute timestamp. -/
structure Profile where
  tier : Option String
  trial_ends_at : Option Int
deriving Repr, DecidableEq

/-- The trial test of checkUserTier:
profile.trial_ends_at && new Date(profile.trial_ends_at) > new Date(). -/
def isInTrial (p : Profile) (now : Int) : Bool :=
  match p.trial_ends_at with
  | some t => decide (t > now)
  | none => false

/-- The effective tier of checkUserTier: a user in an active trial is
treated as the pro tier regardless of the stored tier; otherwise the
stored tier (possibly absent) is used. -/
def effectiveTier (p : Profile) (now : Int) : Option String :=
  if isInTrial p now then some "pro" else p.tier

/-- The decision requiredTiers.includes(effectiveTier): an absent effective
tier is never in the list. -/
def checkUserTierAllowed (p : Profile) (now : Int) (requiredTiers : List String) : Bool :=
  match effectiveTier p now with
  | some t => requiredTiers.contains t
  | none => false

/-- The allowed-tier set of the coaching endpoint (coach/route.ts line 37):
coaching is Pro+ only. -/
def coachRequiredTiers : List String := ["pro", "business"]

/-- The allowed-tier set of the OCR, analysis, email and transcription
endpoints: every paid tier. -/
def allPaidTiers : List String := ["basic", "pro", "business"]

/-- The tier handed to checkRateLimit by the quota-limited routes: the
stored profile tier with a falsy default of basic (a missing profile, a
missing tier column, or an empty-string tier all fall back to basic). -/
def storedRateTier (profile : Option Profile) : String :=
  match profile with
  | none => "basic"
  | some p =>
    match p.tier with
    | some t => if t = "" then "basic" else t
    | none => "basic"

/-- C2: while the trial expiry is strictly in the future the effective tier
is the trial tier pro regardless of the stored tier; otherwise it is the
stored tier. A stored-basic user with a future expiry passes the coaching
gate (pro or business required); with a past (or exactly-now) expiry they
do not. -/
theorem effectiveTier_trial_promotion (p : Profile) (now : Int) :
    (∀ t, p.trial_ends_at = some t → t > now →
      effectiveTier p now = some "pro") ∧
    (isInTrial p now = false → effectiveTier p now = p.tier) ∧
    (∀ t, p.tier = some "basic" → p.trial_ends_at = some t → t > now →
      checkUserTierAllowed p now coachRequiredTiers = true) ∧
    (∀ t, p.tier = some "basic" → p.trial_ends_at = some t → t ≤ now →
      checkUserTierAllowed p now coachRequiredTiers = false) := by
  refine ⟨?_, ?_, ?_, ?_⟩
  · intro t ht hfut
    unfold effectiveTier isInTrial
    rw [ht]
    simp [hfut]
  · intro hno
    unfold effectiveTier
    rw [hno]
    simp
  · intro t htier ht hfut
    unfold checkUserTierAllowed effectiveTier isInTrial
    rw [ht]
    simp [hfut, coachRequiredTiers]
  · intro t htier ht hpast
    unfold checkUserTierAllowed effectiveTier isInTrial
    rw [ht, htier]
    have : ¬ t > now := by omega
    simp [this, coachRequiredTiers]

/-- Witness for C2: stored tier basic, trial expiry 100: at now = 50 the
coaching gate admits, at now = 100 it denies. -/
theorem effectiveTier_trial_promotion_witness :
    checkUserTierAllowed ⟨some "basic", some 100⟩ 50 coachRequiredTiers = true ∧
    checkUserTierAllowed ⟨some "basic", some 100⟩ 100 coachRequiredTiers = false := by
  constructor
  · exact (effectiveTier_trial_promotion ⟨some "basic", some 100⟩ 50).2.2.1
      100 rfl rfl (by decide)
  · exact (effectiveTier_trial_promotion ⟨some "basic", some 100⟩ 100).2.2.2
      100 rfl rfl (by decide)

end Listory

namespace Listory

/-! ## Route handlers as effect-traced functions

Each handler is modelled as a pure function from its external inputs (the
resolved user, the profile row, the count-query outcome, the validation
verdict, the provider outcome) to the response envelope plus the ordered
list of side effects it performed. -/

/-- Side effects a handler can perform, in the order they appear in the
returned trace. -/
inductive Effect
  | validate
  | providerCall
  | usageWrite
  | s3Delete
deriving Repr, DecidableEq

/-- A response envelope, reduced to what the claims observe: HTTP status,
the success flag, and the error code (none on success). -/
structure RouteResponse where
  status : Nat
  success : Bool
  code : Option String
deriving Repr, DecidableEq

/-- JS String.prototype.includes for a nonempty pattern, via splitOn. -/
def jsIncludes (s pat : String) : Bool :=
  decide (2 ≤ (s.splitOn pat).length)

/-- The catch block of the OCR route (ocr/route.ts lines 155-203),
classifying the thrown provider error by message substrings. -/
def ocrCatchResponse (msg : String) : RouteResponse :=
  if jsIncludes msg "rate_limit" then ⟨429, false, some "RATE_LIMIT"⟩
  else if jsIncludes msg "Incorrect API key" || jsIncludes msg "invalid_api_key" then
    ⟨500, false, some "CONFIG_ERROR"⟩
  else if jsIncludes msg "Could not process image" || jsIncludes msg "Invalid image" then
    ⟨400, false, some "IMAGE_ERROR"⟩
  else ⟨500, false, some "SERVER_ERROR"⟩

/-- External inputs of one OCR request (ocr/route.ts POST). -/
structure OcrEnv where
  user : Option String
  profile : Option Profile
  now : Int
  countResult : Except String (Option Nat)
  bodyValid : Bool
  providerResult : Except String (Option String)
  parseOk : Bool

/-- The OCR POST handler (ocr/route.ts): authenticate, gate on tier with
the stored-tier trial promotion, rate limit with the stored tier and the
ocr feature tag, validate the body, call the vision provider, parse, then
record usage and answer. -/
def ocrPost (env : OcrEnv) : RouteResponse × List Effect :=
  match env.user with
  | none => (⟨401, false, some "AUTH_ERROR"⟩, [])
  | some _ =>
    match env.profile with
    | none => (⟨403, false, some "TIER_ERROR"⟩, [])
    | some p =>
      if checkUserTierAllowed p env.now allPaidTiers then
        let q := checkRateLimit env.countResult (storedRateTier (some p)) "ocr"
        if q.allowed then
          if env.bodyValid then
            match env.providerResult with
            | .error msg => (ocrCatchResponse msg, [.validate, .providerCall])
            | .ok none => (⟨500, false, some "AI_ERROR"⟩, [.validate, .providerCall])
            | .ok (some _) =>
              if env.parseOk then
                (⟨200, true, none⟩, [.validate, .providerCall, .usageWrite])
              else (⟨500, false, some "PARSE_ERROR"⟩, [.validate, .providerCall])
          else (⟨400, false, some "VALIDATION_ERROR"⟩, [.validate])
        else (⟨429, false, some "RATE_LIMIT_EXCEEDED"⟩, [])
      else (⟨403, false, some "TIER_ERROR"⟩, [])

/-- The quota decision computed by the analyze route (analyze/route.ts
lines 66-73): checkRateLimit with the stored tier and the analyze tag. -/
def analyzeQuotaDecision (profile : Option Profile)
    (countResult : Except String (Option Nat)) : QuotaDecision :=
  checkRateLimit countResult (storedRateTier profile) "analyze"

/-- C5: on the OCR route, validation runs only after authentication,
authorization and the quota check have all passed; a failed validation
answers VALIDATION_ERROR with no provider call and no usage write; the
provider is called only on a valid body; usage is written only when the
provider call returned parseable content; and every trace is an initial
segment of validate, providerCall, usageWrite. -/
theorem ocr_validation_order (env : OcrEnv) :
    (∀ p, env.profile = some p →
      checkUserTierAllowed p env.now allPaidTiers = true →
      (checkRateLimit env.countResult (storedRateTier (some p)) "ocr").allowed = true →
      env.user ≠ none → env.bodyValid = false →
      ocrPost env = (⟨400, false, some "VALIDATION_ERROR"⟩, [Effect.validate])) ∧
    (Effect.validate ∈ (ocrPost env).2 →
      env.user ≠ none ∧ ∃ p, env.profile = some p ∧
        checkUserTierAllowed p env.now allPaidTiers = true ∧
        (checkRateLimit env.countResult (storedRateTier (some p)) "ocr").allowed = true) ∧
    (Effect.providerCall ∈ (ocrPost env).2 →
      Effect.validate ∈ (ocrPost env).2 ∧ env.bodyValid = true) ∧
    (Effect.usageWrite ∈ (ocrPost env).2 →
      env.parseOk = true ∧ ∃ c, env.providerResult = .ok (some c)) ∧
    ((ocrPost env).2 = [] ∨ (ocrPost env).2 = [Effect.validate] ∨
      (ocrPost env).2 = [Effect.validate, Effect.providerCall] ∨
      (ocrPost env).2 = [Effect.validate, Effect.providerCall, Effect.usageWrite]) := by
  obtain ⟨user, profile, now, countResult, bodyValid, providerResult, parseOk⟩ := env
  cases user with
  | none => simp [ocrPost]
  | some uid =>
    cases profile with
    | none => simp [ocrPost]
    | some p =>
      by_cases hgate : checkUserTierAllowed p now allPaidTiers = true
      · by_cases hq :
          (checkRateLimit countResult (storedRateTier (some p)) "ocr").allowed = true
        · cases bodyValid with
          | false => simp [ocrPost, hgate, hq]
          | true =>
            cases providerResult with
            | error msg => simp [ocrPost, hgate, hq]
            | ok content =>
              cases content with
              | none => simp [ocrPost, hgate, hq]
              | some c =>
                cases parseOk with
                | false => simp [ocrPost, hgate, hq]
                | true => simp [ocrPost, hgate, hq]
        · simp [ocrPost, hgate, Bool.not_eq_true _ ▸ hq, hq]
      · simp [ocrPost, hgate]

/-- Witness for C5: an invalid body behind a passing gate and quota yields
VALIDATION_ERROR with only the validate effect in the trace. -/
theorem ocr_validation_order_witness :
    ocrPost ⟨some "u1", some ⟨some "basic", none⟩, 0, .ok (some 0), false,
      .ok (some "x"), true⟩ =
      (⟨400, false, some "VALIDATION_ERROR"⟩, [Effect.validate]) := by
  exact (ocr_validation_order ⟨some "u1", some ⟨some "basic", none⟩, 0,
    .ok (some 0), false, .ok (some "x"), true⟩).1
    ⟨some "basic", none⟩ rfl (by decide) (by decide) (by simp) rfl

/-- C8: the quota-limited routes hand checkRateLimit the stored tier
(defaulting to basic), not the trial-promoted effective tier. A user with
stored tier basic and a future trial expiry is promoted to pro for every
tier gate (including the pro-only coaching gate), yet the OCR route still
denies with RATE_LIMIT_EXCEEDED at the basic cap of 50 (a pro tier would
be unlimited there), and the analyze-route quota decision at the basic
cap of 20 likewise denies. -/
theorem quota_uses_stored_tier (uid : String) (T now : Int) (hT : T > now)
    (u : Nat) (hu : 50 ≤ u) (pr : Except String (Option String)) (pk : Bool) :
    effectiveTier ⟨some "basic", some T⟩ now = some "pro" ∧
    checkUserTierAllowed ⟨some "basic", some T⟩ now coachRequiredTiers = true ∧
    checkUserTierAllowed ⟨some "basic", some T⟩ now allPaidTiers = true ∧
    storedRateTier (some ⟨some "basic", some T⟩) = "basic" ∧
    ocrPost ⟨some uid, some ⟨some "basic", some T⟩, now, .ok (some u), true, pr, pk⟩ =
      (⟨429, false, some "RATE_LIMIT_EXCEEDED"⟩, []) ∧
    (analyzeQuotaDecision (some ⟨some "basic", some T⟩) (.ok (some 20))).allowed =
      false ∧
    (checkRateLimit (.ok (some u)) "pro" "ocr").allowed = true := by
  have heff : effectiveTier ⟨some "basic", some T⟩ now = some "pro" := by
    unfold effectiveTier isInTrial
    simp [hT]
  have hgate : checkUserTierAllowed ⟨some "basic", some T⟩ now allPaidTiers = true := by
    unfold checkUserTierAllowed
    rw [heff]
    decide
  have hstored : storedRateTier (some ⟨some "basic", some T⟩) = "basic" := by
    simp [storedRateTier]
  have hdeny : (checkRateLimit (.ok (some u)) "basic" "ocr").allowed = false := by
    unfold checkRateLimit RATE_LIMITS tierLimit
    simp
    omega
  refine ⟨heff, ?_, hgate, hstored, ?_, ?_, ?_⟩
  · unfold checkUserTierAllowed
    rw [heff]
    decide
  · simp [ocrPost, hgate, hdeny, hstored]
  · simp [analyzeQuotaDecision, hstored]
    decide
  · unfold checkRateLimit RATE_LIMITS tierLimit
    simp

/-- Witness for C8: user with stored tier basic, trial expiry 100, at
now = 0 and 50 recorded ocr uses: the gate admits as pro but the OCR route
denies on the basic cap. -/
theorem quota_uses_stored_tier_witness :
    checkUserTierAllowed ⟨some "basic", some 100⟩ 0 coachRequiredTiers = true ∧
    ocrPost ⟨some "u1", some ⟨some "basic", some 100⟩, 0, .ok (some 50), true,
      .ok (some "x"), true⟩ =
      (⟨429, false, some "RATE_LIMIT_EXCEEDED"⟩, []) := by
  have h := quota_uses_stored_tier "u1" 100 0 (by decide) 50 (by decide)
    (.ok (some "x")) true
  exact ⟨h.2.1, h.2.2.2.2.1⟩

end Listory

namespace Listory

/-! ## Storage deletion (src/lib/s3.ts, storage/delete-file/route.ts) -/

/-- JS String.prototype.split on a single-character separator, over the
character list: the empty string yields one empty segment, and every
separator occurrence opens a new segment. -/
def splitOnChar (sep : Char) : List Char → List (List Char)
  | [] => [[]]
  | c :: rest =>
    let r := splitOnChar sep rest
    if c = sep then [] :: r
    else
      match r with
      | [] => [[c]]
      | h :: t => (c :: h) :: t

/-- JS path.split for a string and a one-character separator. -/
def jsSplit (s : String) (sep : Char) : List String :=
  (splitOnChar sep s.toList).map fun cs => String.mk cs

/-- extractUserIdFromPath of s3.ts: split the object key on the slash and
return the second segment when there are at least two segments. -/
def extractUserIdFromPath (path : String) : Option String :=
  let parts := jsSplit path '/'
  if 2 ≤ parts.length then parts[1]? else none

/-- Outcome of the S3 DeleteObject call. -/
inductive S3DeleteOutcome
  | ok
  | noSuchKey
  | otherError
deriving Repr, DecidableEq

/-- External inputs of one delete-file request: the resolved user, the key
field of the body (none when absent or not a string), and the outcome the
object store reports when the delete is actually issued. -/
structure DeleteEnv where
  user : Option String
  key : Option String
  deleteOutcome : S3DeleteOutcome

/-- A delete-file response envelope: status, success flag, error code, and
the success message of the data payload. -/
structure DeleteResp where
  status : Nat
  success : Bool
  code : Option String
  message : Option String
deriving Repr, DecidableEq

/-- The delete-file POST handler (delete-file/route.ts): authenticate,
validate the key (string of length 1 to 500), extract the owning user id
from the key (a falsy extraction is an invalid path), deny with FORBIDDEN
on an ownership mismatch, otherwise delete, mapping a NoSuchKey report to
a success with a distinguishing message. -/
def deleteFilePost (env : DeleteEnv) : DeleteResp × List Effect :=
  match env.user with
  | none => (⟨401, false, some "AUTH_ERROR", none⟩, [])
  | some uid =>
    match env.key with
    | none => (⟨400, false, some "VALIDATION_ERROR", none⟩, [])
    | some key =>
      if key.length < 1 ∨ 500 < key.length then
        (⟨400, false, some "VALIDATION_ERROR", none⟩, [])
      else
        match extractUserIdFromPath key with
        | none => (⟨400, false, some "INVALID_PATH", none⟩, [])
        | some owner =>
          if owner = "" then (⟨400, false, some "INVALID_PATH", none⟩, [])
          else if owner ≠ uid then (⟨403, false, some "FORBIDDEN", none⟩, [])
          else
            match env.deleteOutcome with
            | .noSuchKey =>
              (⟨200, true, none, some "File not found (already deleted)"⟩, [.s3Delete])
            | .otherError => (⟨500, false, some "SERVER_ERROR", none⟩, [.s3Delete])
            | .ok =>
              (⟨200, true, none, some "File deleted successfully"⟩, [.s3Delete])

/-- C6: an authenticated delete request for a well-formed key whose
embedded owner id (second path segment) differs from the caller answers
403 FORBIDDEN and never issues the storage delete. -/
theorem delete_forbidden_on_ownership_mismatch (env : DeleteEnv)
    (uid key owner : String) (hu : env.user = some uid) (hk : env.key = some key)
    (hlen1 : 1 ≤ key.length) (hlen2 : key.length ≤ 500)
    (howner : extractUserIdFromPath key = some owner) (hne : owner ≠ "")
    (hmismatch : owner ≠ uid) :
    deleteFilePost env = (⟨403, false, some "FORBIDDEN", none⟩, []) ∧
    Effect.s3Delete ∉ (deleteFilePost env).2 := by
  have hres : deleteFilePost env = (⟨403, false, some "FORBIDDEN", none⟩, []) := by
    unfold deleteFilePost
    rw [hu, hk]
    have hnotshort : ¬ (key.length < 1 ∨ 500 < key.length) := by omega
    simp only [hnotshort, if_false]
    rw [howner]
    simp [hne, hmismatch]
  exact ⟨hres, by rw [hres]; simp⟩

/-- Witness for C6: bob asking to delete a key owned by alice is denied
with no delete issued. -/
theorem delete_forbidden_on_ownership_mismatch_witness :
    deleteFilePost ⟨some "bob", some "audio/alice/1700000000_call.wav", .ok⟩ =
      (⟨403, false, some "FORBIDDEN", none⟩, []) := by
  exact (delete_forbidden_on_ownership_mismatch
    ⟨some "bob", some "audio/alice/1700000000_call.wav", .ok⟩
    "bob" "audio/alice/1700000000_call.wav" "alice" rfl rfl
    (by decide) (by decide) (by decide) (by decide) (by decide)).1

/-- C9: an owner-matching delete whose key the store reports as absent
(NoSuchKey) answers a success envelope with the distinguishing
already-deleted message, different from the normal success message; it is
not an error envelope. -/
theorem delete_no_such_key_is_success (env : DeleteEnv) (uid key : String)
    (hu : env.user = some uid) (hk : env.key = some key)
    (hlen1 : 1 ≤ key.length) (hlen2 : key.length ≤ 500)
    (howner : extractUserIdFromPath key = some uid) (hne : uid ≠ "")
    (hout : env.deleteOutcome = .noSuchKey) :
    deleteFilePost env =
      (⟨200, true, none, some "File not found (already deleted)"⟩, [.s3Delete]) ∧
    (deleteFilePost env).1.message ≠ some "File deleted successfully" := by
  have hres : deleteFilePost env =
      (⟨200, true, none, some "File not found (already deleted)"⟩, [.s3Delete]) := by
    unfold deleteFilePost
    rw [hu, hk]
    have hnotshort : ¬ (key.length < 1 ∨ 500 < key.length) := by omega
    simp only [hnotshort, if_false]
    rw [howner, hout]
    simp [hne]
  exact ⟨hres, by rw [hres]; simp⟩

/-- Witness for C9: alice deleting her own already-absent key gets the
already-deleted success message. -/
theorem delete_no_such_key_is_success_witness :
    deleteFilePost ⟨some "alice", some "audio/alice/1700000000_call.wav", .noSuchKey⟩ =
      (⟨200, true, none, some "File not found (already deleted)"⟩, [.s3Delete]) := by
  exact (delete_no_such_key_is_success
    ⟨some "alice", some "audio/alice/1700000000_call.wav", .noSuchKey⟩
    "alice" "audio/alice/1700000000_call.wav" rfl rfl
    (by decide) (by decide) (by decide) (by decide) rfl).1

end Listory

namespace Listory

/-! ## Coaching route (coach/route.ts) -/

/-- The object the coaching route builds from the parsed provider content;
fields absent in the JSON are none. -/
structure CoachJson where
  tip : Option String
  category : Option String
  priority : Option String
  knowledge_base_reference : Option String
  tip_hash : Option String
  meeting_stage : Option String
deriving Repr, DecidableEq

/-- coachingResponseSchema of schemas/coaching-response.ts applied to a
non-null object: tip is a string of length 10 to 200, category and
priority are drawn from their enumerations, tip_hash is a string, and
meeting_stage, when present, is drawn from its enumeration. -/
def coachingSchemaOk (j : CoachJson) : Bool :=
  (match j.tip with
   | some t => decide (10 ≤ t.length) && decide (t.length ≤ 200)
   | none => false) &&
  (match j.category with
   | some c =>
     ["objection_handling", "closing", "rapport", "information", "none"].contains c
   | none => false) &&
  (match j.priority with
   | some p => ["high", "medium", "low"].contains p
   | none => false) &&
  (match j.tip_hash with
   | some _ => true
   | none => false) &&
  (match j.meeting_stage with
   | some m =>
     ["opening", "discovery", "presentation", "negotiation", "closing"].contains m
   | none => true)

/-- Outcome of the coaching provider call: a throw or timeout abort, an
empty content, content that JSON.parse rejects, content parsing to a
falsy value, or content parsing to an object. -/
inductive CoachProviderOutcome
  | throws
  | empty
  | unparseable
  | parsedNull
  | parsed (j : CoachJson)
deriving Repr, DecidableEq

/-- External inputs of one coaching request: the resolved user, the
profile row, the clock, the validation verdict, the recent_tips hashes of
the body, the provider outcome, and the md5-prefix hash computed for the
tip (opaque here). -/
structure CoachEnv where
  user : Option String
  profile : Option Profile
  now : Int
  bodyValid : Bool
  recentTips : List String
  provider : CoachProviderOutcome
  tipHash : String

/-- A coaching response envelope: status, success, error code, and the
data payload (none is the no-tip answer). -/
structure CoachResp where
  status : Nat
  success : Bool
  code : Option String
  data : Option CoachJson
deriving Repr, DecidableEq

/-- The coaching POST handler (coach/route.ts): authenticate, gate on the
pro-or-business tiers, validate, call the provider under a 10 second
abort, and degrade every provider failure, falsy or none-category tip,
duplicated tip, or schema rejection to a success with null data;
only a schema-valid fresh tip records usage. -/
def coachPost (env : CoachEnv) : CoachResp × List Effect :=
  match env.user with
  | none => (⟨401, false, some "AUTH_ERROR", none⟩, [])
  | some _ =>
    match env.profile with
    | none => (⟨403, false, some "TIER_ERROR", none⟩, [])
    | some p =>
      if checkUserTierAllowed p env.now coachRequiredTiers then
        if env.bodyValid then
          match env.provider with
          | .throws => (⟨200, true, none, none⟩, [.validate, .providerCall])
          | .empty => (⟨200, true, none, none⟩, [.validate, .providerCall])
          | .unparseable => (⟨200, true, none, none⟩, [.validate, .providerCall])
          | .parsedNull => (⟨200, true, none, none⟩, [.validate, .providerCall])
          | .parsed j =>
            if j.category = some "none" ∨ j.tip = none ∨ j.tip = some "" then
              (⟨200, true, none, none⟩, [.validate, .providerCall])
            else if env.recentTips.contains env.tipHash then
              (⟨200, true, none, none⟩, [.validate, .providerCall])
            else
              let j2 := { j with tip_hash := some env.tipHash }
              if coachingSchemaOk j2 then
                (⟨200, true, none, some j2⟩, [.validate, .providerCall, .usageWrite])
              else (⟨200, true, none, none⟩, [.validate, .providerCall])
        else (⟨400, false, some "VALIDATION_ERROR", none⟩, [.validate])
      else (⟨403, false, some "TIER_ERROR", none⟩, [])

/-- C7: once a coaching request has passed authentication, the tier gate
and validation, a provider throw or timeout, empty content, unparseable
or null-parsed content, or content whose object fails the coaching
response schema all answer the success envelope with null data and write
no usage; no error envelope is ever produced for a provider failure. -/
theorem coach_provider_failure_degrades (env : CoachEnv) (uid : String)
    (p : Profile) (hu : env.user = some uid) (hp : env.profile = some p)
    (hgate : checkUserTierAllowed p env.now coachRequiredTiers = true)
    (hbody : env.bodyValid = true)
    (hfail : env.provider = .throws ∨ env.provider = .empty ∨
      env.provider = .unparseable ∨ env.provider = .parsedNull ∨
      ∃ j, env.provider = .parsed j ∧
        coachingSchemaOk { j with tip_hash := some env.tipHash } = false) :
    coachPost env = (⟨200, true, none, none⟩, [.validate, .providerCall]) := by
  unfold coachPost
  rw [hu, hp]
  rcases hfail with h | h | h | h | ⟨j, h, hschema⟩ <;> rw [h] <;>
    simp only [hgate, hbody, if_true]
  by_cases h1 : j.category = some "none" ∨ j.tip = none ∨ j.tip = some ""
  · rw [if_pos h1]
  · by_cases h2 : env.recentTips.contains env.tipHash = true
    · rw [if_neg h1, if_pos h2]
    · rw [if_neg h1, if_neg h2]
      simp [hschema]

/-- Witness for C7: a pro user with a valid body whose provider call
times out gets success with null data. -/
theorem coach_provider_failure_degrades_witness :
    coachPost ⟨some "u1", some ⟨some "pro", none⟩, 0, true, [], .throws, "abcd1234"⟩ =
      (⟨200, true, none, none⟩, [.validate, .providerCall]) := by
  exact coach_provider_failure_degrades
    ⟨some "u1", some ⟨some "pro", none⟩, 0, true, [], .throws, "abcd1234"⟩
    "u1" ⟨some "pro", none⟩ rfl rfl (by decide) rfl (Or.inl rfl)

end Listory

namespace Listory

/-! ## Analyze retry loop (analyze/route.ts lines 177-226) -/

/-- The provider error surfaced by the LLM SDK, reduced to the status
field the retry loop inspects. -/
structure ProviderError where
  status : Option Nat
deriving Repr, DecidableEq

/-- The retry loop of the analyze route, with the attempt index and the
number of retries still available (maxRetries minus attempt in the
source loop). On success the loop breaks; a 401 or 429 provider status
is rethrown immediately; any other error waits 1000 * (attempt + 1)
milliseconds (appended to the wait trace) and retries while retries
remain, else the last error is thrown. Returns the outcome, the number
of attempts made, and the wait trace. -/
def retryAux (provider : Nat → Except ProviderError String)
    (attempt remainingRetries : Nat) (waits : List Nat) :
    Except ProviderError String × Nat × List Nat :=
  match provider attempt with
  | .ok content => (.ok content, attempt + 1, waits)
  | .error e =>
    if e.status = some 401 ∨ e.status = some 429 then (.error e, attempt + 1, waits)
    else
      match remainingRetries with
      | 0 => (.error e, attempt + 1, waits)
      | r + 1 => retryAux provider (attempt + 1) r (waits ++ [1000 * (attempt + 1)])

/-- The analyze-route provider call: maxRetries = 2, so at most three
attempts starting at attempt 0 with no waits yet. -/
def analyzeProviderCall (provider : Nat → Except ProviderError String) :
    Except ProviderError String × Nat × List Nat :=
  retryAux provider 0 2 []

/-- C10: the analyze provider call makes at most 3 attempts (up to 2
retries beyond the first); the waits between attempts are exactly the
linear backoff 1000 * (attempt + 1), so the wait trace is an initial
segment of [1000, 2000]; an error with provider status 401 or 429 is
rethrown immediately with no further attempt, at any point of the loop;
and a transient (non 401/429) first failure is retried. -/
theorem analyze_retry_policy (provider : Nat → Except ProviderError String) :
    (∀ attempt r waits e, provider attempt = .error e →
      (e.status = some 401 ∨ e.status = some 429) →
      retryAux provider attempt r waits = (.error e, attempt + 1, waits)) ∧
    (analyzeProviderCall provider).2.1 ≤ 3 ∧
    ((analyzeProviderCall provider).2.2 = [] ∨
      (analyzeProviderCall provider).2.2 = [1000] ∨
      (analyzeProviderCall provider).2.2 = [1000, 2000]) ∧
    (∀ e c, provider 0 = .error e →
      ¬ (e.status = some 401 ∨ e.status = some 429) → provider 1 = .ok c →
      analyzeProviderCall provider = (.ok c, 2, [1000])) := by
  have hrethrow : ∀ attempt r waits e, provider attempt = .error e →
      (e.status = some 401 ∨ e.status = some 429) →
      retryAux provider attempt r waits = (.error e, attempt + 1, waits) := by
    intro attempt r waits e he hst
    unfold retryAux
    rw [he]
    simp [hst]
  have hbound : (analyzeProviderCall provider).2.1 ≤ 3 ∧
      ((analyzeProviderCall provider).2.2 = [] ∨
        (analyzeProviderCall provider).2.2 = [1000] ∨
        (analyzeProviderCall provider).2.2 = [1000, 2000]) := by
    unfold analyzeProviderCall
    cases h0 : provider 0 with
    | ok c => simp [retryAux, h0]
    | error e0 =>
      by_cases ha0 : e0.status = some 401 ∨ e0.status = some 429
      · simp [retryAux, h0, ha0]
      · cases h1 : provider 1 with
        | ok c => simp [retryAux, h0, ha0, h1]
        | error e1 =>
          by_cases ha1 : e1.status = some 401 ∨ e1.status = some 429
          · simp [retryAux, h0, ha0, h1, ha1]
          · cases h2 : provider 2 with
            | ok c => simp [retryAux, h0, ha0, h1, ha1, h2]
            | error e2 =>
              by_cases ha2 : e2.status = some 401 ∨ e2.status = some 429
              · simp [retryAux, h0, ha0, h1, ha1, h2, ha2]
              · simp [retryAux, h0, ha0, h1, ha1, h2, ha2]
  refine ⟨hrethrow, hbound.1, hbound.2, ?_⟩
  intro e c h0 hna h1
  unfold analyzeProviderCall
  simp [retryAux, h0, hna, h1]

/-- Witness for C10: a provider that always answers 429 is not retried
(one attempt, no waits), and a provider whose first attempt fails with a
500-class error and whose second succeeds is retried once after a
1000 ms wait. -/
theorem analyze_retry_policy_witness :
    analyzeProviderCall (fun _ => .error ⟨some 429⟩) =
      (.error ⟨some 429⟩, 1, []) ∧
    analyzeProviderCall (fun n => if n = 0 then .error ⟨some 500⟩ else .ok "done") =
      (.ok "done", 2, [1000]) := by
  constructor
  · exact (analyze_retry_policy (fun _ => .error ⟨some 429⟩)).1 0 2 []
      ⟨some 429⟩ rfl (by decide)
  · exact (analyze_retry_policy
      (fun n => if n = 0 then .error ⟨some 500⟩ else .ok "done")).2.2.2
      ⟨some 500⟩ "done" rfl (by decide) rfl

end Listory
